import Mathlib

/-!
Verification of `packages/studio-base/src/panels/ThreeDeeRender/renderables/colorMode.ts`.

The module is embedded shallowly:
* JavaScript numbers are modelled as exact rationals (`ℚ`); the claims under
  study do not hinge on binary floating-point rounding.
* The mutable module-level scratch colors `tempColor1`/`tempColor2` and the
  lazily built `TurboLookup` table are modelled as an explicit `GState` record
  threaded through `getColorConverter` and through every converter invocation
  (the closures returned for the `flat` and `gradient` modes read the scratch
  colors through an alias at invocation time, so invocation takes the state).
* The sRGB electro-optical transfer function's nonlinear branch
  `x ↦ x ^ 2.4` is not exactly representable in rational arithmetic; it is
  abstracted as an explicit function parameter `gpow` of the definitions that
  need it.  Facts proved below either hold for every `gpow`, assume only
  `gpow 1 = 1` (which the real power function satisfies), or instantiate
  `gpow := id` in closed evaluations.
* Helper functions imported by `colorMode.ts` from sibling modules
  (`stringToRgba`, `rgbaToLinear`, `rgbaGradient`, `SRGBToLinear`, `clamp`)
  are not part of the sources under study and are modelled from the
  specification; their doc comments say so.
-/

namespace ColorMode

/-- RGBA color: four rational channels, nominally in `[0,1]`.
Mirrors the `ColorRGBA` record written by the converters. -/
structure Color where
  r : ℚ
  g : ℚ
  b : ℚ
  a : ℚ
deriving DecidableEq

/-- An (r,g,b) triple as stored in the turbo lookup table.  The source stores
the table as a flat `Float32Array` of `65535 * 3` floats holding consecutive
(r,g,b) triples; it is modelled as an array of 65535 triples, so the source's
offset `trunc(pct * 65534) * 3` becomes the triple index `trunc(pct * 65534)`. -/
structure Rgb where
  r : ℚ
  g : ℚ
  b : ℚ
deriving DecidableEq

/-- Modelled from the spec: `clamp` (imported from `../math`, not under the
sources given) clamps a value to `[lo, hi]`. -/
def clamp (v lo hi : ℚ) : ℚ := min (max v lo) hi

/-- Modelled from the spec: the sRGB electro-optical transfer function used by
`SRGBToLinear` (imported from `../color`): for a channel value `c`,
`linear = c ≤ 0.04045 ? c / 12.92 : ((c + 0.055) / 1.055) ^ 2.4`.  The
non-integer power `x ^ 2.4` is abstracted as the parameter `gpow`. -/
def SRGBToLinear (gpow : ℚ → ℚ) (c : ℚ) : ℚ :=
  if c ≤ 0.04045 then c / 12.92 else gpow ((c + 0.055) / 1.055)

/-- Numeric value of one hex digit, by character code (48–57 are `0`–`9`,
97–102 are `a`–`f`, 65–70 are `A`–`F`); `none` for any other character. -/
def hexVal (c : Char) : Option ℕ :=
  if 48 ≤ c.toNat ∧ c.toNat ≤ 57 then some (c.toNat - 48)
  else if 97 ≤ c.toNat ∧ c.toNat ≤ 102 then some (c.toNat - 87)
  else if 65 ≤ c.toNat ∧ c.toNat ≤ 70 then some (c.toNat - 55)
  else none

/-- Modelled from the spec: the color-string parser behind `stringToRgba`
(imported from `../color`), which parses a CSS-style color string into an sRGB
`Color`.  The hex forms `#rrggbb` (alpha 1) and `#rrggbbaa` cover every color
string the claims exercise; character code 35 is the `#` sign. -/
def parseHexColor (s : String) : Option Color :=
  match s.data with
  | c :: rest =>
    if c.toNat = 35 then
      match rest.mapM hexVal with
      | some [r1, r2, g1, g2, b1, b2] =>
        some ⟨(16 * r1 + r2 : ℕ) / 255, (16 * g1 + g2 : ℕ) / 255,
              (16 * b1 + b2 : ℕ) / 255, 1⟩
      | some [r1, r2, g1, g2, b1, b2, a1, a2] =>
        some ⟨(16 * r1 + r2 : ℕ) / 255, (16 * g1 + g2 : ℕ) / 255,
              (16 * b1 + b2 : ℕ) / 255, (16 * a1 + a2 : ℕ) / 255⟩
      | _ => none
    else none
  | _ => none

/-- Modelled from the spec: `stringToRgba(output, colorStr)` parses a
CSS-style color string into the caller-supplied output color and returns that
output; an unparseable string leaves the output unchanged (the spec's
"failing by leaving output unchanged").  `output` holds the previous contents
of the mutable output slot. -/
def stringToRgba (output : Color) (s : String) : Color :=
  (parseHexColor s).getD output

/-- Modelled from the spec: `rgbaToLinear(out, in)` applies the sRGB transfer
function to each of r, g, b; alpha is passed through unchanged. -/
def rgbaToLinear (gpow : ℚ → ℚ) (c : Color) : Color :=
  { r := SRGBToLinear gpow c.r
    g := SRGBToLinear gpow c.g
    b := SRGBToLinear gpow c.b
    a := c.a }

/-- Modelled from the spec: `rgbaGradient(out, colorA, colorB, frac)` linearly
interpolates each channel, including alpha, between two colors. -/
def rgbaGradient (c1 c2 : Color) (frac : ℚ) : Color :=
  { r := c1.r + (c2.r - c1.r) * frac
    g := c1.g + (c2.g - c1.g) * frac
    b := c1.b + (c2.b - c1.b) * frac
    a := c1.a + (c2.a - c1.a) * frac }

/-- JavaScript `Number.EPSILON` is exactly `2⁻⁵²`. -/
def numberEpsilon : ℚ := 1 / 2 ^ 52

/-- JavaScript `Math.trunc`: round toward zero. -/
def jsTrunc (v : ℚ) : ℤ := if 0 ≤ v then v.floor else v.ceil

/-- JavaScript `Math.round`: round half toward positive infinity. -/
def jsRound (v : ℚ) : ℤ := (v + 1 / 2).floor

/-- JavaScript `v >>> 0` (`ToUint32`): truncate toward zero, then reduce
modulo `2³²` into `[0, 2³²)`. -/
def toUint32 (v : ℚ) : ℕ := ((jsTrunc v) % (2 ^ 32 : ℤ)).toNat

end ColorMode

namespace ColorMode

/-- The 256-entry bluegold lookup table, transcribed from the
`blueGoldColormapData` array defined inside `bluegoldLookup`
(`colorMode.ts` lines 107–363). -/
def blueGoldColormapData : List (ℕ × ℕ × ℕ) := [
    (0, 126, 174),
    (4, 129, 177),
    (8, 132, 180),
    (12, 135, 184),
    (16, 138, 187),
    (20, 141, 190),
    (24, 144, 194),
    (28, 147, 197),
    (32, 150, 200),
    (36, 153, 204),
    (40, 156, 207),
    (44, 159, 210),
    (49, 162, 214),
    (53, 165, 217),
    (57, 168, 221),
    (61, 171, 224),
    (65, 174, 227),
    (69, 177, 231),
    (74, 180, 234),
    (85, 183, 235),
    (95, 187, 236),
    (106, 190, 237),
    (116, 194, 238),
    (127, 197, 240),
    (138, 200, 241),
    (148, 204, 242),
    (157, 206, 234),
    (165, 207, 217),
    (173, 207, 200),
    (181, 208, 183),
    (189, 209, 166),
    (197, 210, 149),
    (204, 211, 132),
    (212, 211, 115),
    (220, 212, 98),
    (228, 213, 81),
    (236, 214, 64),
    (244, 215, 47),
    (252, 215, 30),
    (254, 215, 30),
    (254, 215, 36),
    (254, 215, 43),
    (254, 215, 49),
    (254, 215, 55),
    (254, 215, 62),
    (254, 214, 68),
    (254, 214, 74),
    (254, 214, 80),
    (254, 214, 87),
    (254, 214, 93),
    (254, 214, 99),
    (255, 214, 106),
    (255, 213, 105),
    (255, 213, 105),
    (255, 213, 104),
    (255, 213, 104),
    (255, 212, 103),
    (255, 212, 103),
    (255, 212, 102),
    (255, 212, 102),
    (255, 211, 101),
    (255, 211, 101),
    (255, 211, 100),
    (255, 211, 100),
    (255, 210, 99),
    (255, 210, 99),
    (255, 210, 98),
    (255, 210, 98),
    (255, 210, 98),
    (255, 209, 97),
    (255, 209, 97),
    (255, 209, 96),
    (255, 209, 96),
    (255, 208, 95),
    (255, 208, 95),
    (255, 208, 94),
    (255, 208, 94),
    (254, 206, 92),
    (254, 204, 89),
    (254, 202, 86),
    (253, 200, 84),
    (253, 198, 81),
    (252, 196, 78),
    (252, 194, 75),
    (252, 192, 72),
    (251, 190, 70),
    (251, 188, 67),
    (250, 186, 64),
    (250, 184, 61),
    (250, 182, 58),
    (249, 180, 56),
    (249, 178, 53),
    (248, 176, 50),
    (248, 174, 47),
    (248, 172, 44),
    (247, 170, 42),
    (247, 168, 39),
    (246, 166, 36),
    (246, 164, 33),
    (246, 162, 30),
    (245, 160, 28),
    (245, 158, 25),
    (244, 156, 22),
    (244, 154, 19),
    (244, 152, 16),
    (243, 150, 14),
    (243, 148, 11),
    (243, 146, 8),
    (242, 144, 5),
    (242, 142, 2),
    (241, 140, 1),
    (241, 140, 1),
    (241, 140, 1),
    (241, 139, 1),
    (241, 139, 1),
    (241, 138, 1),
    (241, 138, 1),
    (241, 138, 1),
    (241, 137, 1),
    (240, 137, 1),
    (240, 136, 1),
    (240, 136, 1),
    (240, 136, 1),
    (240, 135, 1),
    (240, 135, 1),
    (240, 134, 1),
    (240, 134, 1),
    (240, 134, 1),
    (239, 133, 1),
    (239, 132, 1),
    (239, 131, 1),
    (238, 130, 1),
    (238, 128, 1),
    (238, 127, 1),
    (237, 126, 1),
    (237, 125, 1),
    (237, 124, 1),
    (236, 123, 1),
    (236, 122, 1),
    (236, 121, 1),
    (235, 119, 1),
    (235, 118, 1),
    (235, 117, 1),
    (234, 116, 1),
    (234, 115, 1),
    (234, 114, 1),
    (233, 113, 1),
    (233, 113, 1),
    (232, 113, 1),
    (232, 112, 1),
    (232, 112, 1),
    (231, 112, 1),
    (231, 112, 1),
    (230, 111, 1),
    (230, 111, 1),
    (230, 111, 1),
    (229, 111, 1),
    (229, 110, 1),
    (229, 110, 1),
    (228, 110, 1),
    (228, 109, 1),
    (227, 109, 1),
    (227, 109, 1),
    (227, 109, 1),
    (226, 108, 1),
    (225, 106, 1),
    (225, 105, 1),
    (224, 104, 1),
    (224, 103, 1),
    (223, 102, 1),
    (222, 101, 1),
    (222, 99, 1),
    (221, 98, 1),
    (220, 97, 1),
    (220, 96, 1),
    (219, 95, 1),
    (219, 93, 1),
    (218, 92, 1),
    (217, 91, 1),
    (217, 90, 1),
    (216, 89, 1),
    (216, 88, 1),
    (215, 87, 1),
    (214, 87, 1),
    (213, 87, 1),
    (213, 86, 1),
    (212, 86, 1),
    (211, 86, 1),
    (210, 85, 1),
    (210, 85, 1),
    (209, 85, 1),
    (208, 85, 1),
    (207, 84, 1),
    (207, 84, 1),
    (206, 84, 1),
    (205, 83, 1),
    (205, 83, 1),
    (204, 83, 1),
    (203, 83, 1),
    (202, 82, 1),
    (202, 82, 1),
    (201, 82, 1),
    (200, 81, 0),
    (199, 81, 0),
    (197, 80, 0),
    (196, 80, 0),
    (195, 79, 0),
    (194, 78, 0),
    (192, 78, 0),
    (191, 77, 0),
    (190, 77, 0),
    (189, 76, 0),
    (187, 76, 0),
    (186, 75, 0),
    (185, 74, 0),
    (184, 74, 0),
    (183, 73, 0),
    (181, 73, 0),
    (180, 72, 0),
    (179, 72, 0),
    (179, 72, 0),
    (178, 71, 0),
    (179, 72, 0),
    (179, 72, 0),
    (179, 72, 0),
    (179, 72, 0),
    (179, 72, 0),
    (179, 72, 0),
    (179, 72, 0),
    (179, 72, 0),
    (179, 72, 0),
    (179, 72, 0),
    (179, 72, 0),
    (179, 72, 0),
    (179, 72, 0),
    (179, 72, 0),
    (179, 72, 0),
    (179, 72, 0),
    (182, 70, 0),
    (186, 67, 0),
    (190, 65, 0),
    (194, 62, 0),
    (198, 60, 0),
    (202, 58, 0),
    (206, 55, 0),
    (210, 53, 0),
    (214, 51, 0),
    (218, 48, 0),
    (222, 46, 0),
    (226, 44, 0),
    (230, 41, 0),
    (234, 39, 0),
    (238, 37, 0),
    (242, 34, 0),
    (246, 32, 0),
    (250, 30, 0)]

/-- `bluegoldLookup(output, pct)`: maps an intensity in 0–255 to an entry of
the bluegold table.  JavaScript indexes the array directly with the number
`pct`; `blueGoldColormapData[pct]` is defined exactly when `pct` is an integer
in `[0, 256)` (the table length), in which case r, g, b are the entry divided
by 255 and alpha is set to 1; otherwise the guard
`blueGoldColormapData[pct] != undefined` fails and the output is left
unchanged. -/
def bluegoldLookup (output : Color) (pct : ℚ) : Color :=
  if pct.den = 1 ∧ 0 ≤ pct.num ∧ pct.num < 256 then
    let e := (blueGoldColormapData.get? pct.num.toNat).getD (0, 0, 0)
    { r := (e.1 : ℚ) / 255, g := (e.2.1 : ℚ) / 255, b := (e.2.2 : ℚ) / 255, a := 1 }
  else output

end ColorMode

namespace ColorMode

/-- `getColorBgra(output, colorValue)`: interprets the value as a 32-bit
unsigned integer `0xAARRGGBB` (`colorValue >>> 0`), extracts each byte by
mask-and-shift, and divides by 255. -/
def getColorBgra (colorValue : ℚ) : Color :=
  let num := toUint32 colorValue
  { a := (((num &&& 0xff000000) >>> 24 : ℕ) : ℚ) / 255
    r := (((num &&& 0x00ff0000) >>> 16 : ℕ) : ℚ) / 255
    g := (((num &&& 0x0000ff00) >>> 8 : ℕ) : ℚ) / 255
    b := (((num &&& 0x000000ff) >>> 0 : ℕ) : ℚ) / 255 }

/-- `rainbowLinear(output, pct)`: the 6-segment HSV-derived rainbow map.
`h % 1` is the fractional part (`h ≥ 1` here), `i % 2 < 1` tests evenness of
the segment index. -/
def rainbowLinear (gpow : ℚ → ℚ) (pct : ℚ) : Color :=
  let h := (1 - clamp pct 0 1) * 5 + 1
  let i : ℤ := h.floor
  let f0 := h - (h.floor : ℚ)
  let f := if i % 2 < 1 then 1 - f0 else f0
  let n := SRGBToLinear gpow (1 - f)
  if i ≤ 1 then ⟨n, 0, 1, 1⟩
  else if i = 2 then ⟨0, n, 1, 1⟩
  else if i = 3 then ⟨0, 1, n, 1⟩
  else if i = 4 then ⟨n, 1, 0, 1⟩
  else ⟨1, n, 0, 1⟩

/-- The polynomial coefficient vectors `kRedVec4` … `kBlueVec2` of the turbo
colormap approximation. -/
def kRedVec4 : ℚ × ℚ × ℚ × ℚ := (0.13572138, 4.6153926, -42.66032258, 132.13108234)

def kGreenVec4 : ℚ × ℚ × ℚ × ℚ := (0.09140261, 2.19418839, 4.84296658, -14.18503333)

def kBlueVec4 : ℚ × ℚ × ℚ × ℚ := (0.1066733, 12.64194608, -60.58204836, 110.36276771)

def kRedVec2 : ℚ × ℚ := (-152.94239396, 59.28637943)

def kGreenVec2 : ℚ × ℚ := (4.27729857, 2.82956604)

def kBlueVec2 : ℚ × ℚ := (-89.90310912, 27.34824973)

/-- Dot product of two 4-vectors (`THREE.Vector4.dot`). -/
def dot4 (u v : ℚ × ℚ × ℚ × ℚ) : ℚ :=
  u.1 * v.1 + u.2.1 * v.2.1 + u.2.2.1 * v.2.2.1 + u.2.2.2 * v.2.2.2

/-- Dot product of two 2-vectors (`THREE.Vector2.dot`). -/
def dot2 (u v : ℚ × ℚ) : ℚ := u.1 * v.1 + u.2 * v.2

/-- `turboLinear(output, pct)` restricted to the r,g,b it computes (the source
also sets alpha to 1; the callers below add it back).  `v4 = (1, x, x², x³)`;
`v2 = (v4.z, v4.w) * v4.z = (x⁴, x⁵)`. -/
def turboLinearRgb (gpow : ℚ → ℚ) (pct : ℚ) : Rgb :=
  let x := clamp pct 0 1 * 0.99 + 0.01
  let v4 : ℚ × ℚ × ℚ × ℚ := (1, x, x * x, x * x * x)
  let v2 : ℚ × ℚ := (v4.2.2.1 * v4.2.2.1, v4.2.2.2 * v4.2.2.1)
  { r := SRGBToLinear gpow (clamp (dot4 v4 kRedVec4 + dot2 v2 kRedVec2) 0 1)
    g := SRGBToLinear gpow (clamp (dot4 v4 kGreenVec4 + dot2 v2 kGreenVec2) 0 1)
    b := SRGBToLinear gpow (clamp (dot4 v4 kBlueVec4 + dot2 v2 kBlueVec2) 0 1) }

/-- `TURBO_LOOKUP_SIZE = 65535`. -/
def turboLookupSize : ℕ := 65535

/-- The body of the lazy initialization in `turboLinearCached`: entry `i`
(for `i < 65535`) is `turboLinear(·, i / (TURBO_LOOKUP_SIZE - 1))`. -/
def turboBuildTable (gpow : ℚ → ℚ) : Array Rgb :=
  (Array.range turboLookupSize).map
    (fun (i : ℕ) => turboLinearRgb gpow ((i : ℚ) / ((turboLookupSize - 1 : ℕ) : ℚ)))

/-- The mutable module-level state of `colorMode.ts`: the two scratch colors
`tempColor1`, `tempColor2` (lines 17–18) and the lazily built `TurboLookup`
table (line 431, `undefined` until first use). -/
structure GState where
  tempColor1 : Color
  tempColor2 : Color
  turboLookup : Option (Array Rgb)
deriving DecidableEq

/-- The module state at load time: both scratch colors are
`{ r: 0, g: 0, b: 0, a: 0 }` and the turbo table is unbuilt. -/
def initialState : GState :=
  { tempColor1 := ⟨0, 0, 0, 0⟩, tempColor2 := ⟨0, 0, 0, 0⟩, turboLookup := none }

/-- `turboLinearCached(output, pct)`: builds the turbo lookup table on first
use, then reads the triple at offset `trunc(pct * (TURBO_LOOKUP_SIZE - 1))`
and sets alpha to 1.  The table lives in the module state; an out-of-bounds
read (impossible for `pct ∈ [0,1]`, the only case the theorems below touch)
is modelled by the `getD` default. -/
def turboLinearCached (gpow : ℚ → ℚ) (st : GState) (pct : ℚ) : Color × GState :=
  let lut := match st.turboLookup with
    | some l => l
    | none => turboBuildTable gpow
  let st := { st with turboLookup := some lut }
  let offset := (jsTrunc (pct * (turboLookupSize - 1 : ℕ))).toNat
  let e := lut.getD offset ⟨0, 0, 0⟩
  ({ r := e.r, g := e.g, b := e.b, a := 1 }, st)

/-- The color-mode tag of `ColorModeSettings["colorMode"]`. -/
inductive ColorModeTag
  | flat
  | gradient
  | colormap
  | rgb
  | rgba
  | rgbaFields
deriving DecidableEq

/-- `ColorModeSettings`.  `colorMap` is kept as a string, as it is at runtime:
`getColorConverter` compares it against the three known names and throws on
anything else. -/
structure ColorModeSettings where
  colorMode : ColorModeTag
  flatColor : String
  colorField : Option String := none
  gradient : String × String
  colorMap : String
  explicitAlpha : ℚ
  minValue : Option ℚ := none
  maxValue : Option ℚ := none
deriving DecidableEq

/-- A conversion function.  The JavaScript signature is
`(output, colorValue) → void`; here the previous contents of the output slot
come in and the new contents come out, and the module state is threaded
because the `flat`/`gradient` closures read the shared scratch colors at
invocation time and the `turbo` closure lazily builds the shared table. -/
def Converter : Type := GState → Color → ℚ → Color × GState

/-- Result of a `getColorConverter` call at runtime: a converter function, a
thrown error (the `Unrecognized color map` throw), or JavaScript's implicit
`undefined` when no `switch` case matches (the `rgba-fields` fall-through). -/
inductive ConvResult
  | ok (f : Converter)
  | error (msg : String)
  | undef

/-- `true` exactly for the `error` result (a thrown construction error). -/
def ConvResult.isError : ConvResult → Bool
  | .error _ => true
  | _ => false

/-- `true` exactly for the `ok` result (a converter function was returned). -/
def ConvResult.isOk : ConvResult → Bool
  | .ok _ => true
  | _ => false

/-- Invoke the converter inside an `ok` result on state, previous output
contents and value, keeping only the output color; `none` when there is no
converter to invoke. -/
def invokeColor (r : ConvResult) (st : GState) (prev : Color) (v : ℚ) : Option Color :=
  match r with
  | .ok f => some (f st prev v).1
  | _ => none

/-- `getColorConverter(settings, minValue, maxValue)` (lines 32–92).
Construction parses and linearizes the color strings into the shared scratch
colors and precomputes `valueDelta`; the returned closures for `flat` and
`gradient` capture the scratch colors by reference and read them at
invocation time, which is why `Converter` takes the state.  The inner
`switch (settings.colorMap)` is rendered as an equality chain; an
unrecognized map name reaches the `throw`. -/
def getColorConverter (gpow : ℚ → ℚ) (settings : ColorModeSettings)
    (minValue maxValue : ℚ) (st : GState) : ConvResult × GState :=
  match settings.colorMode with
  | .flat =>
    let flatColor := stringToRgba st.tempColor1 settings.flatColor
    let flatColor := rgbaToLinear gpow flatColor
    let st := { st with tempColor1 := flatColor }
    (.ok (fun stc _prev _v => (stc.tempColor1, stc)), st)
  | .gradient =>
    let valueDelta := max (maxValue - minValue) numberEpsilon
    let minColor := stringToRgba st.tempColor1 settings.gradient.1
    let maxColor := stringToRgba st.tempColor2 settings.gradient.2
    let minColor := rgbaToLinear gpow minColor
    let maxColor := rgbaToLinear gpow maxColor
    let st := { st with tempColor1 := minColor, tempColor2 := maxColor }
    (.ok (fun stc _prev v =>
      let frac := max 0 (min ((v - minValue) / valueDelta) 1)
      (rgbaGradient stc.tempColor1 stc.tempColor2 frac, stc)), st)
  | .colormap =>
    let valueDelta := max (maxValue - minValue) numberEpsilon
    if settings.colorMap = ("turbo") then
      (.ok (fun stc _prev v =>
        let frac := max 0 (min ((v - minValue) / valueDelta) 1)
        let res := turboLinearCached gpow stc frac
        ({ res.1 with a := settings.explicitAlpha }, res.2)), st)
    else if settings.colorMap = ("rainbow") then
      (.ok (fun stc _prev v =>
        let frac := max 0 (min ((v - minValue) / valueDelta) 1)
        ({ rainbowLinear gpow frac with a := settings.explicitAlpha }, stc)), st)
    else if settings.colorMap = ("bluegold") then
      (.ok (fun stc prev v =>
        ({ bluegoldLookup prev v with a := settings.explicitAlpha }, stc)), st)
    else
      (.error (("Unrecognized color map: ") ++ settings.colorMap), st)
  | .rgb =>
    (.ok (fun stc _prev v => ({ getColorBgra v with a := settings.explicitAlpha }, stc)), st)
  | .rgba =>
    (.ok (fun stc _prev v => (getColorBgra v, stc)), st)
  | .rgbaFields => (.undef, st)

end ColorMode

namespace ColorMode

/-- `RGBA_PACKED_FIELDS = new Set(["rgb", "rgba"])`. -/
def RGBA_PACKED_FIELDS : List String := [("rgb"), ("rgba")]

/-- `INTENSITY_FIELDS = new Set(["intensity", "i"])`. -/
def INTENSITY_FIELDS : List String := [("intensity"), ("i")]

/-- `bestColorByField(fields, {supportsPackedRgbModes})` (lines 503–523): the
first field whose lowercase name is a packed-RGB name (only when packed modes
are supported), else the first whose lowercase name is an intensity synonym,
else the field named exactly `"z"`, else the first field. -/
def bestColorByField (fields : List String) (supportsPackedRgbModes : Bool) :
    Option String :=
  ((if supportsPackedRgbModes then
      fields.find? (fun f => RGBA_PACKED_FIELDS.contains f.toLower)
    else none).orElse
    (fun _ => (fields.find? (fun f => INTENSITY_FIELDS.contains f.toLower)).orElse
      (fun _ => (fields.find? (fun f => f = ("z"))).orElse
        (fun _ => fields.head?))))

/-- The priority selection exactly as the claim words it: (1) if packed modes
are supported, a field named `rgb` or `rgba` (case-insensitively); (2) else a
field matching an intensity synonym; (3) else a field named exactly `z`;
(4) else the first field.  Written from the claim, to be compared with
`bestColorByField`. -/
def bestFieldSpec (fields : List String) (supportsPackedRgbModes : Bool) :
    Option String :=
  if supportsPackedRgbModes &&
      fields.any (fun f => f.toLower == ("rgb") || f.toLower == ("rgba")) then
    fields.find? (fun f => f.toLower == ("rgb") || f.toLower == ("rgba"))
  else if fields.any (fun f => f.toLower == ("intensity") || f.toLower == ("i")) then
    fields.find? (fun f => f.toLower == ("intensity") || f.toLower == ("i"))
  else if fields.any (fun f => f == ("z")) then fields.find? (fun f => f == ("z"))
  else fields.head?

/-- One iteration of the loop in `hasSeparateRgbaFields`: the `switch` that
sets the `r`/`g`/`b`/`a` flag when the field is the exact name `red`,
`green`, `blue`, `alpha`. -/
def rgbaFieldFlagsStep (st : Bool × Bool × Bool × Bool) (f : String) :
    Bool × Bool × Bool × Bool :=
  if f = ("red") then (true, st.2.1, st.2.2.1, st.2.2.2)
  else if f = ("green") then (st.1, true, st.2.2.1, st.2.2.2)
  else if f = ("blue") then (st.1, st.2.1, true, st.2.2.2)
  else if f = ("alpha") then (st.1, st.2.1, st.2.2.1, true)
  else st

/-- `hasSeparateRgbaFields(fields)` (lines 525–547): a fold over the field
list mirroring the source's loop that sets one flag per exact name `red`,
`green`, `blue`, `alpha`; the result is the conjunction of the four flags. -/
def hasSeparateRgbaFields (fields : List String) : Bool :=
  let flags := fields.foldl rgbaFieldFlagsStep (false, false, false, false)
  flags.1 && flags.2.1 && flags.2.2.1 && flags.2.2.2

/-- `autoSelectColorSettings(output, fields, modifiers)` (lines 466–501).
`supportsRgbaFieldsMode` is optional in the source (`boolean | undefined`)
and compared with `=== true`.  The guard `if (!bestField) { return; }`
(line 476) tests JavaScript falsiness, which holds both for `undefined`
(no field selected) and for the empty string: a selected field named `""`
also returns early with no mutation. -/
def autoSelectColorSettings (output : ColorModeSettings) (fields : List String)
    (supportsPackedRgbModes : Bool) (supportsRgbaFieldsMode : Option Bool) :
    ColorModeSettings :=
  match bestColorByField fields supportsPackedRgbModes with
  | none => output
  | some bestField =>
    if bestField = ("") then output
    else
      let output := { output with colorField := some bestField }
      let output :=
        if bestField.toLower = ("rgb") then { output with colorMode := .rgb }
        else if bestField.toLower = ("rgba") then { output with colorMode := .rgba }
        else { output with colorMode := .colormap, colorMap := ("turbo") }
      if supportsRgbaFieldsMode = some true then
        if hasSeparateRgbaFields fields then { output with colorMode := .rgbaFields }
        else output
      else output

/-- `colorHasTransparency(settings)` (lines 679–698).  The module-level
scratch color `tempColor` (line 678) that `stringToRgba` writes into is the
`temp` argument; in the `gradient` case the second parse's fallback is the
result of the first, as in the source where both parses share the scratch. -/
def colorHasTransparency (temp : Color) (settings : ColorModeSettings) : Bool :=
  match settings.colorMode with
  | .flat => decide ((stringToRgba temp settings.flatColor).a < 1)
  | .gradient =>
    let c0 := stringToRgba temp settings.gradient.1
    decide (c0.a < 1) || decide ((stringToRgba c0 settings.gradient.2).a < 1)
  | .colormap => decide (settings.explicitAlpha < 1)
  | .rgb => decide (settings.explicitAlpha < 1)
  | .rgba => true
  | .rgbaFields => true

/-- The cached turbo lookup exactly as the claim words its indexing: the entry
at index `round(t * (N - 1))` with `N = 65535`, instead of the source's
`trunc`.  Written from the claim, to be compared with `turboLinearCached`. -/
def turboLinearCachedSpec (gpow : ℚ → ℚ) (st : GState) (pct : ℚ) : Color × GState :=
  let lut := match st.turboLookup with
    | some l => l
    | none => turboBuildTable gpow
  let st := { st with turboLookup := some lut }
  let offset := (jsRound (pct * (turboLookupSize - 1 : ℕ))).toNat
  let e := lut.getD offset ⟨0, 0, 0⟩
  ({ r := e.r, g := e.g, b := e.b, a := 1 }, st)

end ColorMode

namespace ColorMode

/-- Repeated further `getColorConverter` constructions (each a settings value
with its min/max range), folded over the module state: the state after a
sequence of converter constructions. -/
def buildAll (gpow : ℚ → ℚ) (builds : List (ColorModeSettings × ℚ × ℚ))
    (st : GState) : GState :=
  builds.foldl (fun st b => (getColorConverter gpow b.1 b.2.1 b.2.2 st).2) st

/-- Example settings with `colorMode = "rgba-fields"`. -/
def c1Settings : ColorModeSettings :=
  { colorMode := .rgbaFields, flatColor := ("#ffffff"),
    gradient := (("#000000"), ("#ffffff")),
    colorMap := ("turbo"), explicitAlpha := 1 }

/-- Example settings: flat opaque red. -/
def c2SettingsRed : ColorModeSettings :=
  { colorMode := .flat, flatColor := ("#ff0000ff"),
    gradient := (("#000000"), ("#ffffff")),
    colorMap := ("turbo"), explicitAlpha := 1 }

/-- Example settings: flat opaque blue. -/
def c2SettingsBlue : ColorModeSettings :=
  { colorMode := .flat, flatColor := ("#0000ffff"),
    gradient := (("#000000"), ("#ffffff")),
    colorMap := ("turbo"), explicitAlpha := 1 }

/-- Example settings: packed-rgb mode. -/
def c2SettingsRgb : ColorModeSettings :=
  { colorMode := .rgb, flatColor := ("#ffffff"),
    gradient := (("#000000"), ("#ffffff")),
    colorMap := ("turbo"), explicitAlpha := 1 }

/-- Example settings: black-to-white gradient. -/
def c3Settings : ColorModeSettings :=
  { colorMode := .gradient, flatColor := ("#ffffff"),
    gradient := (("#000000ff"), ("#ffffffff")),
    colorMap := ("turbo"), explicitAlpha := 1 }

/-- Example settings: bluegold colormap. -/
def c5Settings : ColorModeSettings :=
  { colorMode := .colormap, flatColor := ("#ffffff"),
    gradient := (("#000000"), ("#ffffff")),
    colorMap := ("bluegold"), explicitAlpha := 1 / 2 }

/-- Example settings used as the mutated output of the auto-selection. -/
def c6Output : ColorModeSettings :=
  { colorMode := .flat, flatColor := ("#ffffff"),
    gradient := (("#000000"), ("#ffffff")),
    colorMap := ("rainbow"), explicitAlpha := 1 }

/-- Example settings: flat half-transparent red, `flatColor = "#ff000080"`. -/
def c9Settings : ColorModeSettings :=
  { colorMode := .flat, flatColor := ("#ff000080"),
    gradient := (("#000000"), ("#ffffff")),
    colorMap := ("turbo"), explicitAlpha := 1 }

/-- Example settings: packed-rgba mode. -/
def c10Settings : ColorModeSettings :=
  { colorMode := .rgba, flatColor := ("#ffffff"),
    gradient := (("#000000"), ("#ffffff")),
    colorMap := ("turbo"), explicitAlpha := 1 }

end ColorMode

namespace ColorMode

theorem ratFloor_eq_intFloor (q : ℚ) : q.floor = ⌊q⌋ := by
  rw [Rat.floor_def', Rat.floor_def]

theorem shiftRight_and_distrib (x y n : ℕ) :
    (x &&& y) >>> n = (x >>> n) &&& (y >>> n) := by
  apply Nat.eq_of_testBit_eq
  intro i
  simp [Nat.testBit_shiftRight, Nat.testBit_and]

theorem byte_hi (x : ℕ) : (x &&& 0xff000000) >>> 24 = x / 2 ^ 24 % 2 ^ 8 := by
  rw [shiftRight_and_distrib]
  have h : (0xff000000 : ℕ) >>> 24 = 2 ^ 8 - 1 := by
    norm_num [Nat.shiftRight_eq_div_pow]
  rw [h, Nat.and_pow_two_sub_one_eq_mod, Nat.shiftRight_eq_div_pow]

theorem byte_mid2 (x : ℕ) : (x &&& 0x00ff0000) >>> 16 = x / 2 ^ 16 % 2 ^ 8 := by
  rw [shiftRight_and_distrib]
  have h : (0x00ff0000 : ℕ) >>> 16 = 2 ^ 8 - 1 := by
    norm_num [Nat.shiftRight_eq_div_pow]
  rw [h, Nat.and_pow_two_sub_one_eq_mod, Nat.shiftRight_eq_div_pow]

theorem byte_mid1 (x : ℕ) : (x &&& 0x0000ff00) >>> 8 = x / 2 ^ 8 % 2 ^ 8 := by
  rw [shiftRight_and_distrib]
  have h : (0x0000ff00 : ℕ) >>> 8 = 2 ^ 8 - 1 := by
    norm_num [Nat.shiftRight_eq_div_pow]
  rw [h, Nat.and_pow_two_sub_one_eq_mod, Nat.shiftRight_eq_div_pow]

theorem byte_lo (x : ℕ) : (x &&& 0x000000ff) >>> 0 = x % 2 ^ 8 := by
  rw [Nat.shiftRight_zero]
  have h : (0x000000ff : ℕ) = 2 ^ 8 - 1 := by norm_num
  rw [h, Nat.and_pow_two_sub_one_eq_mod]

theorem toUint32_natCast (n : ℕ) (h : n < 2 ^ 32) : toUint32 ((n : ℚ)) = n := by
  have h0 : (0 : ℚ) ≤ (n : ℚ) := by positivity
  rw [toUint32, jsTrunc, if_pos h0, ratFloor_eq_intFloor]
  rw [Int.floor_natCast]
  rw [Int.emod_eq_of_lt (by positivity) (by exact_mod_cast h)]
  simp

theorem hasSeparate_foldl (fields : List String) (st : Bool × Bool × Bool × Bool) :
    fields.foldl rgbaFieldFlagsStep st =
      (st.1 || fields.contains ("red"), st.2.1 || fields.contains ("green"),
       st.2.2.1 || fields.contains ("blue"), st.2.2.2 || fields.contains ("alpha")) := by
  induction fields generalizing st with
  | nil => simp
  | cons f fs ih =>
    rw [List.foldl_cons, ih]
    by_cases h1 : f = ("red")
    · simp [rgbaFieldFlagsStep, h1, List.contains_cons]
    · by_cases h2 : f = ("green")
      · simp [rgbaFieldFlagsStep, h1, h2, List.contains_cons]
      · by_cases h3 : f = ("blue")
        · simp [rgbaFieldFlagsStep, h1, h2, h3, List.contains_cons]
        · by_cases h4 : f = ("alpha")
          · simp [rgbaFieldFlagsStep, h1, h2, h3, h4, List.contains_cons]
          · simp [rgbaFieldFlagsStep, h1, h2, h3, h4, List.contains_cons,
              Ne.symm h1, Ne.symm h2, Ne.symm h3, Ne.symm h4]

theorem hasSeparateRgbaFields_eq (fields : List String) :
    hasSeparateRgbaFields fields =
      (fields.contains ("red") && fields.contains ("green") &&
       fields.contains ("blue") && fields.contains ("alpha")) := by
  rw [hasSeparateRgbaFields, hasSeparate_foldl]
  simp

theorem find?_orElse_eq_if_any {α : Type} (l : List α) (p : α → Bool) (k : Option α) :
    (l.find? p).orElse (fun _ => k) = if l.any p then l.find? p else k := by
  cases h : l.find? p with
  | none =>
    have ha : l.any p = false := by
      rw [List.any_eq_false]
      intro x hx
      have := List.find?_eq_none.mp h x hx
      simpa using this
    simp [h, ha, Option.orElse]
  | some v =>
    have ha : l.any p = true := by
      rw [List.any_eq_true]
      exact ⟨v, List.mem_of_find?_eq_some h, List.find?_some h⟩
    simp [h, ha, Option.orElse]

theorem none_orElse_fun {α : Type} (k : Option α) :
    (Option.orElse none (fun _ => k)) = k := rfl

theorem toLower_eq_mk (s : String) : s.toLower = ⟨s.data.map Char.toLower⟩ :=
  String.map_eq Char.toLower s

theorem bestColorByField_eq_spec (fields : List String) (packed : Bool) :
    bestColorByField fields packed = bestFieldSpec fields packed := by
  have hp1 : (fun f : String => RGBA_PACKED_FIELDS.contains f.toLower) =
      (fun f : String => f.toLower == ("rgb") || f.toLower == ("rgba")) := by
    funext f
    rw [Bool.eq_iff_iff]
    simp [RGBA_PACKED_FIELDS, List.contains_cons]
  have hp2 : (fun f : String => INTENSITY_FIELDS.contains f.toLower) =
      (fun f : String => f.toLower == ("intensity") || f.toLower == ("i")) := by
    funext f
    rw [Bool.eq_iff_iff]
    simp [INTENSITY_FIELDS, List.contains_cons]
  have hp3 : (fun f : String => decide (f = ("z"))) = (fun f : String => f == ("z")) := by
    funext f
    rw [Bool.eq_iff_iff]
    simp
  rw [bestColorByField, bestFieldSpec, hp1, hp2, hp3]
  cases packed with
  | false =>
    rw [if_neg (by simp : ¬(false = true)), Bool.false_and,
      if_neg (by simp : ¬(false = true)), none_orElse_fun]
    rw [find?_orElse_eq_if_any, find?_orElse_eq_if_any]
  | true =>
    rw [if_pos rfl, Bool.true_and]
    rw [find?_orElse_eq_if_any, find?_orElse_eq_if_any, find?_orElse_eq_if_any]

theorem bestFieldSpec_isSome (fields : List String) (packed : Bool) (h : fields ≠ []) :
    (bestFieldSpec fields packed).isSome = true := by
  rw [bestFieldSpec]
  split
  · rename_i hc
    have hany := (Bool.and_eq_true _ _).mp hc |>.2
    obtain ⟨x, hx, hpx⟩ := List.any_eq_true.mp hany
    exact List.find?_isSome.mpr ⟨x, hx, hpx⟩
  · split
    · rename_i hany
      obtain ⟨x, hx, hpx⟩ := List.any_eq_true.mp hany
      exact List.find?_isSome.mpr ⟨x, hx, hpx⟩
    · split
      · rename_i hany
        obtain ⟨x, hx, hpx⟩ := List.any_eq_true.mp hany
        exact List.find?_isSome.mpr ⟨x, hx, hpx⟩
      · cases fields with
        | nil => exact absurd rfl h
        | cons f fs => simp

theorem getColorConverter_state_eq (gpow : ℚ → ℚ) (s : ColorModeSettings)
    (minValue maxValue : ℚ) (st : GState)
    (h : s.colorMode = .colormap ∨ s.colorMode = .rgb ∨ s.colorMode = .rgba) :
    (getColorConverter gpow s minValue maxValue st).2 = st := by
  rcases h with h | h | h
  · simp only [getColorConverter, h]
    split
    · rfl
    · split
      · rfl
      · split
        · rfl
        · rfl
  · simp only [getColorConverter, h]
  · simp only [getColorConverter, h]

theorem buildAll_state_eq (gpow : ℚ → ℚ) :
    ∀ (builds : List (ColorModeSettings × ℚ × ℚ)) (st : GState),
      (∀ b ∈ builds,
        b.1.colorMode = .colormap ∨ b.1.colorMode = .rgb ∨ b.1.colorMode = .rgba) →
      buildAll gpow builds st = st := by
  intro builds
  induction builds with
  | nil => intro st _; rfl
  | cons b bs ih =>
    intro st h
    rw [buildAll, List.foldl_cons,
      getColorConverter_state_eq gpow b.1 b.2.1 b.2.2 st (h b (List.mem_cons_self b bs))]
    exact ih st (fun x hx => h x (List.mem_cons_of_mem _ hx))

theorem turboBuildTable_size (gpow : ℚ → ℚ) :
    (turboBuildTable gpow).size = turboLookupSize := by
  simp [turboBuildTable]

theorem turboBuildTable_getD (gpow : ℚ → ℚ) (i : ℕ) (h : i < turboLookupSize) :
    (turboBuildTable gpow).getD i ⟨0, 0, 0⟩ =
      turboLinearRgb gpow ((i : ℚ) / ((turboLookupSize - 1 : ℕ) : ℚ)) := by
  have hs : i < (turboBuildTable gpow).size := by
    rw [turboBuildTable_size]
    exact h
  rw [Array.getD_eq_get?, Array.getElem?_eq_getElem hs]
  simp [turboBuildTable]

end ColorMode

namespace ColorMode

/-- C1 (counterexample): calling `getColorConverter` at runtime with
`colorMode = "rgba-fields"` neither throws nor returns an error value: no
`switch` case matches, the function falls through and silently returns
JavaScript's `undefined` (here `ConvResult.undef`) — not a raised/returned
error — leaving the module state untouched. -/
theorem c1_counterexample :
    (getColorConverter id c1Settings 0 1 initialState).1.isError = false ∧
    (getColorConverter id c1Settings 0 1 initialState).1.isOk = false ∧
    (getColorConverter id c1Settings 0 1 initialState).2 = initialState :=
  ⟨rfl, rfl, rfl⟩

/-- C1 (amended): for every settings value with `colorMode = "rgba-fields"`,
`getColorConverter` never returns a converter function — its type signature
excludes the mode statically, and at runtime the `switch` falls through and
the call silently evaluates to `undefined` (no converter, no raised error),
leaving the module state unchanged. -/
theorem c1_rgba_fields_undefined (gpow : ℚ → ℚ) (settings : ColorModeSettings)
    (minValue maxValue : ℚ) (st : GState)
    (h : settings.colorMode = .rgbaFields) :
    getColorConverter gpow settings minValue maxValue st = (.undef, st) := by
  unfold getColorConverter
  rw [h]

/-- C1 (witness): the amended theorem at the example `rgba-fields` settings. -/
theorem c1_witness :
    c1Settings.colorMode = ColorModeTag.rgbaFields ∧
    getColorConverter id c1Settings 0 1 initialState = (.undef, initialState) :=
  ⟨rfl, c1_rgba_fields_undefined id c1Settings 0 1 initialState rfl⟩

/-- C2 (counterexample): a `flat` converter does own mutable state beyond the
lookup table: it reads the shared scratch color `tempColor1` at invocation
time.  Building a flat red converter, then building a flat blue converter,
changes what the first converter writes: invoking it after the second
construction differs from invoking it right after its own construction. -/
theorem c2_counterexample :
    invokeColor (getColorConverter id c2SettingsRed 0 1 initialState).1
        (getColorConverter id c2SettingsBlue 0 1
          (getColorConverter id c2SettingsRed 0 1 initialState).2).2
        ⟨0, 0, 0, 0⟩ 5
      ≠
    invokeColor (getColorConverter id c2SettingsRed 0 1 initialState).1
        (getColorConverter id c2SettingsRed 0 1 initialState).2
        ⟨0, 0, 0, 0⟩ 5 := by
  have hpR : parseHexColor ("#ff0000ff") =
      some ⟨((255 : ℕ) : ℚ) / 255, ((0 : ℕ) : ℚ) / 255,
            ((0 : ℕ) : ℚ) / 255, ((255 : ℕ) : ℚ) / 255⟩ := rfl
  have hpB : parseHexColor ("#0000ffff") =
      some ⟨((0 : ℕ) : ℚ) / 255, ((0 : ℕ) : ℚ) / 255,
            ((255 : ℕ) : ℚ) / 255, ((255 : ℕ) : ℚ) / 255⟩ := rfl
  have h255 : (((255 : ℕ) : ℚ) / 255) = 1 := by norm_num
  have h0 : (((0 : ℕ) : ℚ) / 255) = 0 := by norm_num
  have hS1 : SRGBToLinear id 1 = 1 := by
    rw [SRGBToLinear, if_neg (by norm_num)]
    norm_num
  have hS0 : SRGBToLinear id 0 = 0 := by
    rw [SRGBToLinear, if_pos (by norm_num)]
    norm_num
  simp only [getColorConverter, c2SettingsRed, c2SettingsBlue, invokeColor, stringToRgba,
    hpR, hpB, Option.getD, rgbaToLinear, h255, h0, hS1, hS0]
  norm_num [Color.mk.injEq]

/-- C2 (amended): a converter's output is unchanged by further
`getColorConverter` calls in the modes `colormap`, `rgb` and `rgba`, which do
not write the shared scratch colors: any such sequence of constructions
leaves the module state — and hence every earlier converter's output —
exactly as it was.  (An intervening `flat` or `gradient` construction
overwrites the shared scratch colors `tempColor1`/`tempColor2` that `flat`
and `gradient` converters read at invocation time, as the counterexample
shows.) -/
theorem c2_converters_stable (gpow : ℚ → ℚ) (s1 : ColorModeSettings)
    (min1 max1 : ℚ) (st0 : GState) (builds : List (ColorModeSettings × ℚ × ℚ))
    (hmodes : ∀ b ∈ builds,
      b.1.colorMode = .colormap ∨ b.1.colorMode = .rgb ∨ b.1.colorMode = .rgba) :
    buildAll gpow builds (getColorConverter gpow s1 min1 max1 st0).2
      = (getColorConverter gpow s1 min1 max1 st0).2 ∧
    ∀ prev v,
      invokeColor (getColorConverter gpow s1 min1 max1 st0).1
          (buildAll gpow builds (getColorConverter gpow s1 min1 max1 st0).2) prev v =
      invokeColor (getColorConverter gpow s1 min1 max1 st0).1
          (getColorConverter gpow s1 min1 max1 st0).2 prev v := by
  have hst := buildAll_state_eq gpow builds
    (getColorConverter gpow s1 min1 max1 st0).2 hmodes
  exact ⟨hst, fun prev v => by rw [hst]⟩

/-- C2 (witness): the amended theorem for a flat converter followed by one
packed-rgb construction. -/
theorem c2_witness :
    (∀ b ∈ [(c2SettingsRgb, (0 : ℚ), (1 : ℚ))],
      b.1.colorMode = ColorModeTag.colormap ∨ b.1.colorMode = ColorModeTag.rgb ∨
      b.1.colorMode = ColorModeTag.rgba) ∧
    (buildAll id [(c2SettingsRgb, (0 : ℚ), (1 : ℚ))]
        (getColorConverter id c2SettingsRed 0 1 initialState).2
      = (getColorConverter id c2SettingsRed 0 1 initialState).2 ∧
    ∀ prev v,
      invokeColor (getColorConverter id c2SettingsRed 0 1 initialState).1
          (buildAll id [(c2SettingsRgb, (0 : ℚ), (1 : ℚ))]
            (getColorConverter id c2SettingsRed 0 1 initialState).2) prev v =
      invokeColor (getColorConverter id c2SettingsRed 0 1 initialState).1
          (getColorConverter id c2SettingsRed 0 1 initialState).2 prev v) :=
  ⟨by decide, c2_converters_stable id c2SettingsRed 0 1 initialState
    [(c2SettingsRgb, (0 : ℚ), (1 : ℚ))] (by decide)⟩

/-- C3 (counterexample): for a gradient converter with
`minValue = maxValue = 0`, the output at input value `0` is the low gradient
endpoint (`frac = clamp(0 / EPSILON, 0, 1) = 0`), not the gradient evaluated
at `frac = 1` as the claim states for every input. -/
theorem c3_counterexample :
    invokeColor (getColorConverter id c3Settings 0 0 initialState).1
        (getColorConverter id c3Settings 0 0 initialState).2 ⟨0, 0, 0, 0⟩ 0
      ≠ some (rgbaGradient
          (getColorConverter id c3Settings 0 0 initialState).2.tempColor1
          (getColorConverter id c3Settings 0 0 initialState).2.tempColor2 1) := by
  have hpK : parseHexColor ("#000000ff") =
      some ⟨((0 : ℕ) : ℚ) / 255, ((0 : ℕ) : ℚ) / 255,
            ((0 : ℕ) : ℚ) / 255, ((255 : ℕ) : ℚ) / 255⟩ := rfl
  have hpW : parseHexColor ("#ffffffff") =
      some ⟨((255 : ℕ) : ℚ) / 255, ((255 : ℕ) : ℚ) / 255,
            ((255 : ℕ) : ℚ) / 255, ((255 : ℕ) : ℚ) / 255⟩ := rfl
  have h255 : (((255 : ℕ) : ℚ) / 255) = 1 := by norm_num
  have h0 : (((0 : ℕ) : ℚ) / 255) = 0 := by norm_num
  have hS1 : SRGBToLinear id 1 = 1 := by
    rw [SRGBToLinear, if_neg (by norm_num)]
    norm_num
  have hS0 : SRGBToLinear id 0 = 0 := by
    rw [SRGBToLinear, if_pos (by norm_num)]
    norm_num
  simp only [getColorConverter, c3Settings, invokeColor, stringToRgba,
    hpK, hpW, Option.getD, rgbaToLinear, h255, h0, hS1, hS0]
  norm_num [rgbaGradient, Color.mk.injEq, numberEpsilon]

/-- C3 (amended): for a gradient converter with `minValue = maxValue = 0`,
construction divides by `valueDelta = max(0 - 0, Number.EPSILON) =
Number.EPSILON > 0` — never by zero — and every invocation deterministically
yields the gradient evaluated at `frac = clamp(value / EPSILON, 0, 1)`; this
`frac` is `1` for every input value ≥ `Number.EPSILON` (the claim's result),
but `0` for every input value ≤ 0. -/
theorem c3_degenerate_range (gpow : ℚ → ℚ) (settings : ColorModeSettings)
    (hmode : settings.colorMode = .gradient) (st : GState) (prev : Color) (v : ℚ) :
    max ((0 : ℚ) - 0) numberEpsilon = numberEpsilon ∧
    (0 : ℚ) < numberEpsilon ∧
    invokeColor (getColorConverter gpow settings 0 0 st).1
        (getColorConverter gpow settings 0 0 st).2 prev v
      = some (rgbaGradient (getColorConverter gpow settings 0 0 st).2.tempColor1
          (getColorConverter gpow settings 0 0 st).2.tempColor2
          (max 0 (min (v / numberEpsilon) 1))) ∧
    (numberEpsilon ≤ v → max 0 (min (v / numberEpsilon) 1) = 1) ∧
    (v ≤ 0 → max 0 (min (v / numberEpsilon) 1) = 0) := by
  have heps : (0 : ℚ) < numberEpsilon := by norm_num [numberEpsilon]
  have hmax : max ((0 : ℚ) - 0) numberEpsilon = numberEpsilon := by
    rw [sub_zero]
    exact max_eq_right (le_of_lt heps)
  refine ⟨hmax, heps, ?_, ?_, ?_⟩
  · have hmax0 : max (0 : ℚ) numberEpsilon = numberEpsilon :=
      max_eq_right (le_of_lt heps)
    simp only [getColorConverter, hmode, invokeColor, sub_zero, hmax0]
  · intro hv
    have h1 : (1 : ℚ) ≤ v / numberEpsilon := (one_le_div heps).mpr hv
    rw [min_eq_right h1]
    exact max_eq_right zero_le_one
  · intro hv
    have h1 : v / numberEpsilon ≤ 0 :=
      div_nonpos_of_nonpos_of_nonneg hv (le_of_lt heps)
    rw [min_eq_left (le_trans h1 zero_le_one)]
    exact max_eq_left h1

/-- C3 (witness): the amended theorem at the black-to-white gradient and
input value 1 (≥ EPSILON, so the clamped fraction is 1). -/
theorem c3_witness :
    c3Settings.colorMode = ColorModeTag.gradient ∧
    (max ((0 : ℚ) - 0) numberEpsilon = numberEpsilon ∧
    (0 : ℚ) < numberEpsilon ∧
    invokeColor (getColorConverter id c3Settings 0 0 initialState).1
        (getColorConverter id c3Settings 0 0 initialState).2 ⟨0, 0, 0, 0⟩ 1
      = some (rgbaGradient
          (getColorConverter id c3Settings 0 0 initialState).2.tempColor1
          (getColorConverter id c3Settings 0 0 initialState).2.tempColor2
          (max 0 (min (1 / numberEpsilon) 1))) ∧
    (numberEpsilon ≤ 1 → max 0 (min ((1 : ℚ) / numberEpsilon) 1) = 1) ∧
    ((1 : ℚ) ≤ 0 → max 0 (min ((1 : ℚ) / numberEpsilon) 1) = 0)) :=
  ⟨rfl, c3_degenerate_range id c3Settings rfl initialState ⟨0, 0, 0, 0⟩ 1⟩

/-- C4 (counterexample): at `t = 9/655340` (where `t * 65534 = 0.9`) the
cached turbo lookup selects the table entry at index `trunc(t * 65534) = 0`,
which differs from the entry at index `round(t * 65534) = 1` that the claim
specifies (`turboLinearCachedSpec` is the claim's wording). -/
theorem c4_counterexample :
    (turboLinearCached id initialState ((9 : ℚ) / 655340)).1
      ≠ (turboLinearCachedSpec id initialState ((9 : ℚ) / 655340)).1 := by
  have hsz : ((turboLookupSize - 1 : ℕ) : ℚ) = 65534 := by
    norm_num [turboLookupSize]
  have harg : (9 : ℚ) / 655340 * ((turboLookupSize - 1 : ℕ) : ℚ) = 9 / 10 := by
    rw [hsz]
    norm_num
  have htr : jsTrunc ((9 : ℚ) / 10) = 0 := by
    rw [jsTrunc, if_pos (by norm_num), ratFloor_eq_intFloor]
    rw [Int.floor_eq_iff]
    norm_num
  have hro : jsRound ((9 : ℚ) / 10) = 1 := by
    rw [jsRound, ratFloor_eq_intFloor]
    rw [Int.floor_eq_iff]
    norm_num
  have hb0 : (0 : ℕ) < turboLookupSize := by norm_num [turboLookupSize]
  have hb1 : (1 : ℕ) < turboLookupSize := by norm_num [turboLookupSize]
  simp only [turboLinearCached, turboLinearCachedSpec, initialState, harg, htr, hro,
    Int.toNat_zero, Int.toNat_one]
  rw [turboBuildTable_getD id 0 hb0, turboBuildTable_getD id 1 hb1, hsz]
  norm_num [turboLinearRgb, clamp, dot4, dot2, kRedVec4, kRedVec2, kGreenVec4,
    kGreenVec2, kBlueVec4, kBlueVec2, SRGBToLinear, Color.mk.injEq, min_def, max_def]

/-- C4 (amended): the cached turbo colormap builds its 65535-entry lookup
table lazily (the table after any invocation is the built table; a state
already holding the built table is left as is — never rebuilt, as the
second-invocation conjunct shows), and for every `t ∈ [0,1]` it selects the
table entry at index `trunc(t × (N − 1))` with `N = 65535` — truncation, not
the rounding the claim states. -/
theorem c4_turbo_cached (gpow : ℚ → ℚ) (st : GState) (t : ℚ)
    (h0 : 0 ≤ t) (h1 : t ≤ 1)
    (hlut : st.turboLookup = none ∨ st.turboLookup = some (turboBuildTable gpow)) :
    (turboBuildTable gpow).size = 65535 ∧
    (turboLinearCached gpow st t).2.turboLookup = some (turboBuildTable gpow) ∧
    (turboLinearCached gpow st t).2.tempColor1 = st.tempColor1 ∧
    (turboLinearCached gpow st t).2.tempColor2 = st.tempColor2 ∧
    (∀ t2, (turboLinearCached gpow (turboLinearCached gpow st t).2 t2).2
        = (turboLinearCached gpow st t).2) ∧
    (turboLinearCached gpow st t).1 =
      { r := (turboLinearRgb gpow (((jsTrunc (t * 65534)).toNat : ℚ) / 65534)).r
        g := (turboLinearRgb gpow (((jsTrunc (t * 65534)).toNat : ℚ) / 65534)).g
        b := (turboLinearRgb gpow (((jsTrunc (t * 65534)).toNat : ℚ) / 65534)).b
        a := 1 } := by
  have hsz : ((turboLookupSize - 1 : ℕ) : ℚ) = 65534 := by
    norm_num [turboLookupSize]
  have hmul : t * ((turboLookupSize - 1 : ℕ) : ℚ) = t * 65534 := by rw [hsz]
  have hnn : (0 : ℚ) ≤ t * 65534 := mul_nonneg h0 (by norm_num)
  have htr : jsTrunc (t * 65534) = (t * 65534 : ℚ).floor := by
    rw [jsTrunc, if_pos hnn]
  have hfl : (t * 65534 : ℚ).floor ≤ 65534 := by
    rw [ratFloor_eq_intFloor]
    have hle : (t * 65534 : ℚ) ≤ ((65534 : ℤ) : ℚ) := by
      push_cast
      nlinarith
    calc ⌊(t * 65534 : ℚ)⌋ ≤ ⌊((65534 : ℤ) : ℚ)⌋ := Int.floor_le_floor hle
    _ = 65534 := Int.floor_intCast 65534
  have hbound : (jsTrunc (t * 65534)).toNat < turboLookupSize := by
    rw [htr]
    have h2 := Int.toNat_le.mpr hfl
    rw [turboLookupSize]
    omega
  refine ⟨by rw [turboBuildTable_size, turboLookupSize], ?_, ?_, ?_, ?_, ?_⟩
  · rcases hlut with hl | hl <;> simp only [turboLinearCached, hl]
  · rcases hlut with hl | hl <;> simp only [turboLinearCached, hl]
  · rcases hlut with hl | hl <;> simp only [turboLinearCached, hl]
  · intro t2
    rcases hlut with hl | hl <;> simp only [turboLinearCached, hl]
  · rcases hlut with hl | hl <;>
      · simp only [turboLinearCached, hl, hmul]
        rw [turboBuildTable_getD gpow _ hbound, hsz]

/-- C4 (witness): the amended theorem at `t = 1/2` starting from the unbuilt
initial state. -/
theorem c4_witness :
    ((0 : ℚ) ≤ 1 / 2 ∧ (1 : ℚ) / 2 ≤ 1 ∧
      (initialState.turboLookup = none ∨
        initialState.turboLookup = some (turboBuildTable id))) ∧
    ((turboBuildTable id).size = 65535 ∧
    (turboLinearCached id initialState (1 / 2)).2.turboLookup
        = some (turboBuildTable id) ∧
    (turboLinearCached id initialState (1 / 2)).2.tempColor1
        = initialState.tempColor1 ∧
    (turboLinearCached id initialState (1 / 2)).2.tempColor2
        = initialState.tempColor2 ∧
    (∀ t2, (turboLinearCached id (turboLinearCached id initialState (1 / 2)).2 t2).2
        = (turboLinearCached id initialState (1 / 2)).2) ∧
    (turboLinearCached id initialState (1 / 2)).1 =
      { r := (turboLinearRgb id (((jsTrunc ((1 / 2 : ℚ) * 65534)).toNat : ℚ) / 65534)).r
        g := (turboLinearRgb id (((jsTrunc ((1 / 2 : ℚ) * 65534)).toNat : ℚ) / 65534)).g
        b := (turboLinearRgb id (((jsTrunc ((1 / 2 : ℚ) * 65534)).toNat : ℚ) / 65534)).b
        a := 1 }) :=
  ⟨⟨by norm_num, by norm_num, Or.inl rfl⟩,
    c4_turbo_cached id initialState (1 / 2) (by norm_num) (by norm_num) (Or.inl rfl)⟩

end ColorMode

namespace ColorMode

set_option maxRecDepth 4000 in
/-- C5: a converter built with `colorMode = "colormap"` and
`colorMap = "bluegold"` passes the raw input value — not the range-normalized
fraction (the output is the same for every `minValue`/`maxValue`) — to the
256-entry lookup table and then overwrites alpha with
`settings.explicitAlpha`; and for every value that is not an integer index of
the 0..255 table the lookup leaves the output color unchanged rather than
throwing. -/
theorem c5_bluegold_raw_value (gpow : ℚ → ℚ) (settings : ColorModeSettings)
    (hmode : settings.colorMode = .colormap) (hmap : settings.colorMap = ("bluegold"))
    (minValue maxValue : ℚ) (st stc : GState) (prev : Color) (v : ℚ) :
    invokeColor (getColorConverter gpow settings minValue maxValue st).1 stc prev v
      = some { bluegoldLookup prev v with a := settings.explicitAlpha } ∧
    (getColorConverter gpow settings minValue maxValue st).2 = st ∧
    blueGoldColormapData.length = 256 ∧
    (¬(v.den = 1 ∧ 0 ≤ v.num ∧ v.num < 256) → bluegoldLookup prev v = prev) := by
  refine ⟨?_, ?_, by rfl, ?_⟩
  · simp [getColorConverter, hmode, hmap, invokeColor]
  · simp [getColorConverter, hmode, hmap]
  · intro h
    rw [bluegoldLookup, if_neg h]

/-- C5 (witness): the theorem at the bluegold settings, an arbitrary range
and the out-of-table input value 300. -/
theorem c5_witness :
    c5Settings.colorMode = ColorModeTag.colormap ∧
    c5Settings.colorMap = ("bluegold") ∧
    (invokeColor (getColorConverter id c5Settings 3 7 initialState).1
        initialState ⟨0, 0, 0, 0⟩ 300
      = some { bluegoldLookup ⟨0, 0, 0, 0⟩ 300 with a := c5Settings.explicitAlpha } ∧
    (getColorConverter id c5Settings 3 7 initialState).2 = initialState ∧
    blueGoldColormapData.length = 256 ∧
    (¬((300 : ℚ).den = 1 ∧ 0 ≤ (300 : ℚ).num ∧ (300 : ℚ).num < 256) →
      bluegoldLookup ⟨0, 0, 0, 0⟩ 300 = ⟨0, 0, 0, 0⟩)) :=
  ⟨rfl, rfl,
    c5_bluegold_raw_value id c5Settings rfl rfl 3 7 initialState initialState
      ⟨0, 0, 0, 0⟩ 300⟩

/-- C6 (counterexample): for the field list `[""]` the heuristic selects the
first field, named `""`; the claim then mandates `colorField = ""` with
`colorMode = "colormap"`, `colorMap = "turbo"`, but the program's
`if (!bestField) return` guard treats the empty string as falsy and makes no
change at all. -/
theorem c6_counterexample :
    bestColorByField [("")] true = some ("") ∧
    autoSelectColorSettings c6Output [("")] true none = c6Output ∧
    c6Output.colorField = none ∧
    c6Output.colorMode ≠ ColorModeTag.colormap := by
  have h1 : bestColorByField [("")] true = some ("") := by
    simp only [bestColorByField, RGBA_PACKED_FIELDS, INTENSITY_FIELDS, toLower_eq_mk]
    decide
  refine ⟨h1, ?_, rfl, by decide⟩
  rw [autoSelectColorSettings, h1]
  simp only []
  rw [if_pos trivial]

/-- C6 (amended): `autoSelectColorSettings` picks the color field by the
claim's priority (formalized by `bestFieldSpec`, which `bestColorByField`
equals): case-insensitively a packed `rgb`/`rgba` name when packed modes are
supported, else an intensity synonym, else the exact name `z`, else the first
field; an empty field list changes nothing, a non-empty one always selects a
field.  If the selected field is named `""` — falsy in JavaScript — the
function returns early and changes nothing; otherwise the selected field
becomes `colorField`, a field lowercasing to `rgb`/`rgba` sets the
corresponding packed mode, and any other selected field sets
`colorMode = "colormap"` with `colorMap = "turbo"` (mode statements under
the hypothesis that the separate-rgba-fields override of C7 does not
fire). -/
theorem c6_auto_select_priority (output : ColorModeSettings) (fields : List String)
    (packed : Bool) (rfm : Option Bool)
    (hno : ¬(rfm = some true ∧ hasSeparateRgbaFields fields = true)) :
    bestColorByField fields packed = bestFieldSpec fields packed ∧
    (fields = [] → autoSelectColorSettings output fields packed rfm = output) ∧
    (fields ≠ [] → (bestColorByField fields packed).isSome = true) ∧
    (∀ bf, bestColorByField fields packed = some bf → bf = ("") →
      autoSelectColorSettings output fields packed rfm = output) ∧
    (∀ bf, bestColorByField fields packed = some bf → bf ≠ ("") →
      (autoSelectColorSettings output fields packed rfm).colorField = some bf ∧
      (bf.toLower = ("rgb") →
        (autoSelectColorSettings output fields packed rfm).colorMode = .rgb) ∧
      (bf.toLower = ("rgba") →
        (autoSelectColorSettings output fields packed rfm).colorMode = .rgba) ∧
      (bf.toLower ≠ ("rgb") → bf.toLower ≠ ("rgba") →
        (autoSelectColorSettings output fields packed rfm).colorMode = .colormap ∧
        (autoSelectColorSettings output fields packed rfm).colorMap = ("turbo"))) := by
  refine ⟨bestColorByField_eq_spec fields packed, ?_, ?_, ?_, ?_⟩
  · intro h
    subst h
    have hnone : bestColorByField ([] : List String) packed = none := by
      rw [bestColorByField_eq_spec]
      simp [bestFieldSpec]
    rw [autoSelectColorSettings, hnone]
  · intro h
    rw [bestColorByField_eq_spec]
    exact bestFieldSpec_isSome fields packed h
  · intro bf hbf hbfe
    rw [autoSelectColorSettings, hbf]
    simp only []
    rw [if_pos hbfe]
  · intro bf hbf hbfne
    have hred : autoSelectColorSettings output fields packed rfm =
        (if bf.toLower = ("rgb") then
          { output with colorField := some bf, colorMode := .rgb }
         else if bf.toLower = ("rgba") then
          { output with colorField := some bf, colorMode := .rgba }
         else
          { output with colorField := some bf, colorMode := .colormap, colorMap := ("turbo") }) := by
      by_cases hc : rfm = some true
      · have hsep : hasSeparateRgbaFields fields = false := by
          cases hh : hasSeparateRgbaFields fields
          · rfl
          · exact absurd ⟨hc, hh⟩ hno
        rw [autoSelectColorSettings, hbf]
        simp only []
        rw [if_neg hbfne, if_pos hc, if_neg (by rw [hsep]; exact Bool.false_ne_true)]
      · rw [autoSelectColorSettings, hbf]
        simp only []
        rw [if_neg hbfne, if_neg hc]
    rw [hred]
    refine ⟨?_, ?_, ?_, ?_⟩
    · split
      · rfl
      · split
        · rfl
        · rfl
    · intro h
      rw [if_pos h]
    · intro h
      have hne : bf.toLower ≠ ("rgb") := by
        rw [h]
        decide
      rw [if_neg hne, if_pos h]
    · intro h1 h2
      rw [if_neg h1, if_neg h2]
      exact ⟨rfl, rfl⟩

/-- C6 (witness): the amended theorem at fields `["foo", "rgb", "intensity"]`
with packed modes supported and the rgba-fields mode unsupported. -/
theorem c6_witness :
    (¬((none : Option Bool) = some true ∧
      hasSeparateRgbaFields [("foo"), ("rgb"), ("intensity")] = true)) ∧
    (bestColorByField [("foo"), ("rgb"), ("intensity")] true
        = bestFieldSpec [("foo"), ("rgb"), ("intensity")] true ∧
    (([("foo"), ("rgb"), ("intensity")] : List String) = [] →
      autoSelectColorSettings c6Output [("foo"), ("rgb"), ("intensity")] true none
        = c6Output) ∧
    (([("foo"), ("rgb"), ("intensity")] : List String) ≠ [] →
      (bestColorByField [("foo"), ("rgb"), ("intensity")] true).isSome = true) ∧
    (∀ bf, bestColorByField [("foo"), ("rgb"), ("intensity")] true = some bf →
      bf = ("") →
      autoSelectColorSettings c6Output [("foo"), ("rgb"), ("intensity")] true none
        = c6Output) ∧
    (∀ bf, bestColorByField [("foo"), ("rgb"), ("intensity")] true = some bf →
      bf ≠ ("") →
      (autoSelectColorSettings c6Output [("foo"), ("rgb"), ("intensity")] true
          none).colorField = some bf ∧
      (bf.toLower = ("rgb") →
        (autoSelectColorSettings c6Output [("foo"), ("rgb"), ("intensity")] true
          none).colorMode = .rgb) ∧
      (bf.toLower = ("rgba") →
        (autoSelectColorSettings c6Output [("foo"), ("rgb"), ("intensity")] true
          none).colorMode = .rgba) ∧
      (bf.toLower ≠ ("rgb") → bf.toLower ≠ ("rgba") →
        (autoSelectColorSettings c6Output [("foo"), ("rgb"), ("intensity")] true
          none).colorMode = .colormap ∧
        (autoSelectColorSettings c6Output [("foo"), ("rgb"), ("intensity")] true
          none).colorMap = ("turbo")))) :=
  ⟨by simp, c6_auto_select_priority c6Output [("foo"), ("rgb"), ("intensity")] true
    none (by simp)⟩

/-- C7 (counterexample): with `supportsRgbaFieldsMode` enabled and fields
`["", "red", "green", "blue", "alpha"]` — which contain all four exact names
`red`, `green`, `blue`, `alpha` — the heuristic falls back to the first
field, named `""`, the falsy guard returns early, and the final `colorMode`
is the unchanged `flat`, not `rgba-fields`: the override does not always
win. -/
theorem c7_counterexample :
    hasSeparateRgbaFields [(""), ("red"), ("green"), ("blue"), ("alpha")] = true ∧
    autoSelectColorSettings c6Output [(""), ("red"), ("green"), ("blue"), ("alpha")]
        false (some true) = c6Output ∧
    c6Output.colorMode ≠ ColorModeTag.rgbaFields := by
  have h1 : bestColorByField [(""), ("red"), ("green"), ("blue"), ("alpha")] false
      = some ("") := by
    simp only [bestColorByField, RGBA_PACKED_FIELDS, INTENSITY_FIELDS, toLower_eq_mk]
    decide
  refine ⟨by decide, ?_, by decide⟩
  rw [autoSelectColorSettings, h1]
  simp only []
  rw [if_pos trivial]

/-- C7 (amended): whenever `supportsRgbaFieldsMode` is enabled, the field
list contains all four exact case-sensitive names `red`, `green`, `blue`,
`alpha`, and the heuristic's selected field is not the falsy empty string
(which would make `autoSelectColorSettings` return before the override), the
final `colorMode` is `rgba-fields` regardless of which field the priority
heuristic chose — the override check runs last and wins. -/
theorem c7_rgba_fields_override (output : ColorModeSettings) (fields : List String)
    (packed : Bool) (rfm : Option Bool) (hrfm : rfm = some true)
    (hr : fields.contains ("red") = true) (hgr : fields.contains ("green") = true)
    (hbl : fields.contains ("blue") = true) (hal : fields.contains ("alpha") = true)
    (hbfne : bestColorByField fields packed ≠ some ("")) :
    (autoSelectColorSettings output fields packed rfm).colorMode = .rgbaFields := by
  have hsep : hasSeparateRgbaFields fields = true := by
    rw [hasSeparateRgbaFields_eq, hr, hgr, hbl, hal]
    rfl
  have hne : fields ≠ [] := by
    intro h
    subst h
    simp [List.contains] at hr
  have hs : (bestColorByField fields packed).isSome = true := by
    rw [bestColorByField_eq_spec]
    exact bestFieldSpec_isSome fields packed hne
  obtain ⟨bf, hbf⟩ := Option.isSome_iff_exists.mp hs
  have hb : bf ≠ ("") := by
    intro h
    rw [h] at hbf
    exact hbfne hbf
  simp [autoSelectColorSettings, hbf, hrfm, hsep, hb]

/-- C7 (witness): the override at the field list
`["red", "green", "blue", "alpha"]`, whose selected field is `"red"`. -/
theorem c7_witness :
    ((some true : Option Bool) = some true) ∧
    ([("red"), ("green"), ("blue"), ("alpha")].contains ("red") = true) ∧
    ([("red"), ("green"), ("blue"), ("alpha")].contains ("green") = true) ∧
    ([("red"), ("green"), ("blue"), ("alpha")].contains ("blue") = true) ∧
    ([("red"), ("green"), ("blue"), ("alpha")].contains ("alpha") = true) ∧
    (bestColorByField [("red"), ("green"), ("blue"), ("alpha")] false ≠ some ("")) ∧
    (autoSelectColorSettings c6Output [("red"), ("green"), ("blue"), ("alpha")]
      false (some true)).colorMode = .rgbaFields :=
  ⟨rfl, by decide, by decide, by decide, by decide,
    by
      simp only [bestColorByField, RGBA_PACKED_FIELDS, INTENSITY_FIELDS, toLower_eq_mk]
      decide,
    c7_rgba_fields_override c6Output [("red"), ("green"), ("blue"), ("alpha")]
      false (some true) rfl (by decide) (by decide) (by decide) (by decide)
      (by
        simp only [bestColorByField, RGBA_PACKED_FIELDS, INTENSITY_FIELDS, toLower_eq_mk]
        decide)⟩

/-- C8: `getColorBgra` interprets its value as the 32-bit unsigned integer
`0xAARRGGBB` and assigns `a = byte3/255`, `r = byte2/255`, `g = byte1/255`,
`b = byte0/255`: packing byte values `(a, r, g, b)` into `0xAARRGGBB` and
unpacking reproduces the original four byte values divided by 255, for all
2³² representable inputs; the function is total — there is no error path. -/
theorem c8_unpack_round_trip (a r g b : ℕ) (ha : a < 256) (hr : r < 256)
    (hg : g < 256) (hb : b < 256) :
    getColorBgra (((a * 2 ^ 24 + r * 2 ^ 16 + g * 2 ^ 8 + b : ℕ) : ℚ)) =
      ⟨(r : ℚ) / 255, (g : ℚ) / 255, (b : ℚ) / 255, (a : ℚ) / 255⟩ := by
  have hx : a * 2 ^ 24 + r * 2 ^ 16 + g * 2 ^ 8 + b < 2 ^ 32 := by omega
  simp only [getColorBgra, toUint32_natCast _ hx, byte_hi, byte_mid2, byte_mid1, byte_lo]
  have e1 : (a * 2 ^ 24 + r * 2 ^ 16 + g * 2 ^ 8 + b) / 2 ^ 24 % 2 ^ 8 = a := by omega
  have e2 : (a * 2 ^ 24 + r * 2 ^ 16 + g * 2 ^ 8 + b) / 2 ^ 16 % 2 ^ 8 = r := by omega
  have e3 : (a * 2 ^ 24 + r * 2 ^ 16 + g * 2 ^ 8 + b) / 2 ^ 8 % 2 ^ 8 = g := by omega
  have e4 : (a * 2 ^ 24 + r * 2 ^ 16 + g * 2 ^ 8 + b) % 2 ^ 8 = b := by omega
  rw [e1, e2, e3, e4]

/-- C8 (witness): the round trip at bytes `(a, r, g, b) = (1, 2, 3, 4)`,
i.e. the packed value `0x01020304`. -/
theorem c8_witness :
    (1 : ℕ) < 256 ∧ (2 : ℕ) < 256 ∧ (3 : ℕ) < 256 ∧ (4 : ℕ) < 256 ∧
    getColorBgra (((1 * 2 ^ 24 + 2 * 2 ^ 16 + 3 * 2 ^ 8 + 4 : ℕ) : ℚ)) =
      ⟨((2 : ℕ) : ℚ) / 255, ((3 : ℕ) : ℚ) / 255, ((4 : ℕ) : ℚ) / 255,
       ((1 : ℕ) : ℚ) / 255⟩ :=
  ⟨by decide, by decide, by decide, by decide,
    c8_unpack_round_trip 1 2 3 4 (by decide) (by decide) (by decide) (by decide)⟩

/-- C9: a converter built with `colorMode = "flat"` and
`flatColor = "#ff000080"` ignores its input value: invoking it (at the
post-construction state) with any input value and any previous output always
yields the same parsed, linearized red with alpha exactly 128/255 ≈ 0.502,
for every transfer-function power with `gpow 1 = 1`. -/
theorem c9_flat_constant (gpow : ℚ → ℚ) (hg : gpow 1 = 1) (st : GState)
    (minValue maxValue : ℚ) (prev : Color) (v : ℚ) :
    invokeColor (getColorConverter gpow c9Settings minValue maxValue st).1
      (getColorConverter gpow c9Settings minValue maxValue st).2 prev v
      = some ⟨1, 0, 0, 128 / 255⟩ := by
  have hp : parseHexColor ("#ff000080") =
      some ⟨((255 : ℕ) : ℚ) / 255, ((0 : ℕ) : ℚ) / 255,
            ((0 : ℕ) : ℚ) / 255, ((128 : ℕ) : ℚ) / 255⟩ := rfl
  have h255 : (((255 : ℕ) : ℚ) / 255) = 1 := by norm_num
  have h0 : (((0 : ℕ) : ℚ) / 255) = 0 := by norm_num
  have h128 : (((128 : ℕ) : ℚ) / 255) = 128 / 255 := by norm_num
  have hs1 : SRGBToLinear gpow 1 = 1 := by
    rw [SRGBToLinear, if_neg (by norm_num)]
    have harg : ((1 : ℚ) + 0.055) / 1.055 = 1 := by norm_num
    rw [harg, hg]
  have hs0 : SRGBToLinear gpow 0 = 0 := by
    rw [SRGBToLinear, if_pos (by norm_num)]
    norm_num
  simp only [getColorConverter, c9Settings, invokeColor, stringToRgba, hp, Option.getD,
    rgbaToLinear, h255, h0, h128, hs1, hs0]

/-- C9 (witness): the theorem at `gpow = id`, the initial state, the range
`[0, 1]`, a zero previous output and input value 5. -/
theorem c9_witness :
    (id (1 : ℚ) = 1) ∧
    invokeColor (getColorConverter id c9Settings 0 1 initialState).1
      (getColorConverter id c9Settings 0 1 initialState).2 ⟨0, 0, 0, 0⟩ 5
      = some ⟨1, 0, 0, 128 / 255⟩ :=
  ⟨rfl, c9_flat_constant id rfl initialState 0 1 ⟨0, 0, 0, 0⟩ 5⟩

/-- C10: `colorHasTransparency` returns, for `flat`, whether the parsed flat
color's alpha is < 1; for `gradient`, whether either parsed gradient
endpoint's alpha is < 1; for `colormap` and `rgb`, whether
`explicitAlpha < 1`; and for `rgba` and `rgba-fields` it always returns
`true`, independent of the data. -/
theorem c10_transparency (temp : Color) (settings : ColorModeSettings) :
    (settings.colorMode = .rgba ∨ settings.colorMode = .rgbaFields →
      colorHasTransparency temp settings = true) ∧
    (settings.colorMode = .colormap ∨ settings.colorMode = .rgb →
      (colorHasTransparency temp settings = true ↔ settings.explicitAlpha < 1)) ∧
    (settings.colorMode = .flat →
      (colorHasTransparency temp settings = true ↔
        (stringToRgba temp settings.flatColor).a < 1)) ∧
    (settings.colorMode = .gradient →
      (colorHasTransparency temp settings = true ↔
        ((stringToRgba temp settings.gradient.1).a < 1 ∨
         (stringToRgba (stringToRgba temp settings.gradient.1)
            settings.gradient.2).a < 1))) := by
  obtain ⟨mode, fc, cf, gr, cm, ea, mn, mx⟩ := settings
  cases mode <;> simp [colorHasTransparency]

/-- C10 (witness): for the packed-rgba settings the classifier returns
`true` independent of the data. -/
theorem c10_witness :
    colorHasTransparency ⟨0, 0, 0, 0⟩ c10Settings = true :=
  (c10_transparency ⟨0, 0, 0, 0⟩ c10Settings).1 (Or.inl rfl)

end ColorMode
